import Mathlib

/-!
Shallow embedding of the VideoRecorder engine
(src/VideoRecorder.cpp together with src/VideoRecorder/include/VideoRecorder.h).

Conventions used throughout:
* `std::chrono::steady_clock` time points and durations are modelled as `Nat`
  counts of nanoseconds (the clock's tick period on the target platforms is
  `std::nano`); `duration_cast` between integral durations truncates toward
  zero, which on the non-negative values occurring here is `Nat` division.
* fallible collaborator calls (libav allocation / open / write calls, the
  producer callback, queue pushes that may throw `std::bad_alloc`) are
  modelled by explicit boolean success oracles carried next to the data they
  concern, so that every control-flow branch of the source is represented.
* the one genuinely undefined-behaviour path of the source
  (`CVideoRecorder::Cleanup` dereferencing a null `videoFile`) is modelled by
  returning `none` from the corresponding `Option`-valued function.
* log output is modelled as a list of events (`Ev`); only the log lines and
  I/O actions that the verified properties talk about are given events.
-/

namespace VideoRecorder

/-- Nanoseconds per second: the tick ratio of `clock::duration`
(`std::chrono::steady_clock`, period `std::nano`). -/
def nanosPerSec : Nat := 1000000000

/-- Source constant `static constexpr unsigned int lowFPS = 30`. -/
def lowFPS : Nat := 30

/-- Source constant `static constexpr unsigned int highFPS = 60`. -/
def highFPS : Nat := 60

/-- Ceiling division, used only to state the spec's pending-frame formula. -/
def cdiv (a b : Nat) : Nat := (a + b - 1) / b

/-- Modelled from the spec sentence it is compared against: the claimed
pending-frame-count for a gap of `gapNs` nanoseconds at `fps` frames per
second is the ceiling of the elapsed time times the frame rate. -/
def specPendingCount (fps gapNs : Nat) : Nat := cdiv (gapNs * fps) nanosPerSec

/-- Enum `CVideoRecorder::Codec` (header). -/
inductive Codec where
  | h264
  | hevc
deriving DecidableEq

/-- Enum `CVideoRecorder::Preset`: `Default` plus the x264-style speed names
generated by `GENERATE_ENCOE_PRESETS`. -/
inductive Preset where
  | Default
  | placebo
  | veryslow
  | slower
  | slow
  | medium
  | fast
  | faster
  | veryfast
  | superfast
  | ultrafast
deriving DecidableEq

/-- Enum `CVideoRecorder::Status` (header lines 69-74). -/
inductive Status where
  | ok
  | retry
  | clean
deriving DecidableEq

/-- Enum `CVideoRecorder::RecordMode` (header lines 76-81). -/
inductive RecordMode where
  | stopped
  | lowFPS
  | highFPS
deriving DecidableEq

/-- Enum `CFrame::FrameData::Format`. -/
inductive FrameFormat where
  | b8g8r8a8
  | r10g10b10a2
deriving DecidableEq

/-- Struct `CFrame::FrameData`; a null `pixels` pointer is `none`
(the buffer contents are irrelevant to the verified properties, so a live
pointer is abstracted to an arbitrary `Nat` tag). -/
structure FrameData where
  format : FrameFormat
  width : Nat
  height : Nat
  stride : Nat
  pixels : Option Nat
deriving DecidableEq

/-- Class `CVideoRecorder::CFrame` as it matters to the queue: `id` stands
for the object identity of the `shared_ptr<CFrame>` target (used by
`Cancel`'s identity scan), and the remaining fields are the data members set
by the `CFrame` constructor from the opaque tuple plus the producer-supplied
frame data. `ready` starts `false` and is set by `CFrame::Ready`. -/
structure FrameHandle where
  id : Nat
  screenshotPaths : List String
  videoPendingFrames : Nat
  ready : Bool
  frameData : FrameData
deriving DecidableEq

/-- The fields of the allocated `AVCodecContext` that the claims mention:
`context->width`, `context->height` (set to `width & ~1`, `height & ~1`) and
the frame rate denominator of `context->time_base`. -/
structure CodecCtx where
  width : Nat
  height : Nat
  timeBaseFps : Nat
deriving DecidableEq

/-- The fields of the reusable destination `AVFrame` (`parent.dstFrame`):
pixel format 10-bit flag, dimensions copied from the codec context, and the
running presentation timestamp `pts`. -/
structure DstFrame where
  fmt10 : Bool
  width : Nat
  height : Nat
  pts : Nat
deriving DecidableEq

/-- The open output container (`parent.videoFile`, an `AVFormatContext`):
`pb` records whether `avio_open` has attached an I/O context. -/
structure VideoFile where
  pb : Bool
  filename : String
deriving DecidableEq

/-- Success oracle for the fallible steps of
`CStartVideoRecordRequest::operator()`, in source order: `FindEncoder`
result non-null, `avcodec_alloc_context3`, `avcodec_open2`,
`av_frame_alloc`, `av_frame_get_buffer`, `avformat_alloc_output_context2`,
`avformat_new_stream`, `avcodec_parameters_from_context`, `avio_open`,
`avformat_write_header`. -/
structure StartOutcome where
  findOk : Bool
  allocCtxOk : Bool
  codecOpenOk : Bool
  frameAllocOk : Bool
  frameBufOk : Bool
  outputAllocOk : Bool
  streamOk : Bool
  paramsOk : Bool
  avioOpenOk : Bool
  headerOk : Bool
deriving DecidableEq

/-- The all-successful start outcome. -/
def StartOutcome.allOk : StartOutcome :=
  ⟨true, true, true, true, true, true, true, true, true, true⟩

/-- Success oracle for the fallible steps of `CFrameTask::operator()`:
`Convert` of an R10G10B10A2 source, `sws_getCachedContext`, and the encode
loop, where `encodeFailAt = some k` means the `k`-th iteration's
`av_frame_make_writable`/`Encode` pair fails (`none`: all succeed). -/
structure FrameOutcome where
  convertOk : Bool
  cvtCtxOk : Bool
  encodeFailAt : Option Nat
deriving DecidableEq

/-- The all-successful frame-task outcome. -/
def FrameOutcome.allOk : FrameOutcome := ⟨true, true, none⟩

/-- Constructor arguments of `CStartVideoRecordRequest` (its `const` data
members); `matchedStop` is computed by the caller as
`recordMode == RecordMode::STOPPED`. -/
structure StartReq where
  filename : String
  width : Nat
  height : Nat
  tenBit : Bool
  highFPS : Bool
  codecID : Codec
  crf : Int
  preset : Preset
  matchedStop : Bool
deriving DecidableEq

/-- The polymorphic task queue entries (`ITask` and its three final
subclasses).  Execution-time success oracles travel with the task. -/
inductive Task where
  | frame (f : FrameHandle) (eo : FrameOutcome)
  | start (req : StartReq) (oc : StartOutcome)
  | stop (matchedStart : Bool)
deriving DecidableEq

/-- The `ITask::operator bool` readiness predicate: the default
implementation returns `true`; `CFrameTask` overrides it with
`srcFrame->ready`. -/
def taskReady : Task → Bool
  | .frame f _ => f.ready
  | .start _ _ => true
  | .stop _ => true

/-- The mutable state of a `CVideoRecorder` object, covering the fields the
verified properties depend on.  Worker-owned session fields come first, then
the caller-side pacing/mode/queue fields. -/
structure CVideoRecorder where
  context : Option CodecCtx
  dstFrame : Option DstFrame
  videoFile : Option VideoFile
  videoStream : Bool
  nextFrame : Nat
  recordMode : RecordMode
  screenshotPaths : List String
  taskQueue : List Task
  status : Status
deriving DecidableEq

/-- A freshly constructed recorder: all session pointers null, mode
`STOPPED`, empty queues, status `OK`. -/
def initRecorder : CVideoRecorder :=
  { context := none, dstFrame := none, videoFile := none, videoStream := false,
    nextFrame := 0, recordMode := .stopped, screenshotPaths := [],
    taskQueue := [], status := .ok }

/-- Observable events: the warning/log lines and I/O actions the claims
talk about, in the order the source emits them. -/
inductive Ev where
  | warnUnmatchedStart
  | warnUnmatchedStop
  | sessionOpened
  | sessionClosed
  | ioOpenFile
  | ioWriteHeader
  | ioStopEncode
  | ioWriteTrailer
  | ioCloseFile
  | ioEncodeFrame (pts : Nat)
  | saveScreenshot (path : String)
  | warnInvalidFrame
  | logStartFailed
  | logStopResult (ok : Bool)
deriving DecidableEq

/-- The 32-bit computation `width & ~1` performed on an `unsigned int`
(`~1` is the mask `2^32 - 2`). -/
def and32not1 (w : Nat) : Nat := w &&& (2 ^ 32 - 2)

/-- Template `CVideoRecorder::AdvanceFrame<FPS>` (VideoRecorder.cpp lines
742-749).  `delta = duration_cast<FrameDuration<FPS>>(now - nextFrame) +
FrameDuration<FPS>(1)`, then `nextFrame += duration_cast<clock::duration>
(delta)` and the pending count is `delta.count()`.  Both casts truncate;
returns (new `nextFrame`, `videoPendingFrames`). -/
def advanceFrame (fps now nextFrame : Nat) : Nat × Nat :=
  let delta := (now - nextFrame) * fps / nanosPerSec + 1
  (nextFrame + delta * nanosPerSec / fps, delta)

/-- Body of `CVideoRecorder::Cleanup` (lines 151-158) for an open container
`vf`: reset `context` and `dstFrame`, close the I/O context when one is
attached (`if (videoFile->pb) avio_closep`), then reset `videoFile`. -/
def cleanupCore (vf : VideoFile) (s : CVideoRecorder) : CVideoRecorder × List Ev :=
  ({ s with context := none, dstFrame := none, videoFile := none,
            videoStream := false },
   (if vf.pb then [Ev.ioCloseFile] else []) ++ [Ev.sessionClosed])

/-- `CVideoRecorder::Cleanup` as called: it reads `videoFile->pb`, so when
`videoFile` is null the call dereferences a null pointer — undefined
behaviour, modelled as `none`. -/
def cleanupRun (s : CVideoRecorder) : Option (CVideoRecorder × List Ev) :=
  match s.videoFile with
  | none => none
  | some vf => some (cleanupCore vf s)

/-- `CStopVideoRecordRequest::operator()` (lines 582-614): warn when the
stop had no matched start; return immediately when no container is open;
otherwise flush via `Encode()`, write the trailer, close the file
(`avio_closep`, after which `videoFile->pb` is null) and `Cleanup`.
Failures of the flush/trailer/close steps only change the final log line
and are not distinguished here. -/
def execStop (matchedStart : Bool) (s : CVideoRecorder) :
    CVideoRecorder × List Ev :=
  let warn := if matchedStart then [] else [Ev.warnUnmatchedStop]
  match s.videoFile with
  | none => (s, warn)
  | some vf =>
    let s1 := { s with videoFile := some { vf with pb := false } }
    let (s2, cevs) := cleanupCore { vf with pb := false } s1
    (s2, warn ++ [Ev.ioStopEncode, Ev.ioWriteTrailer, Ev.ioCloseFile] ++ cevs
           ++ [Ev.logStopResult true])

/-- The `do { av_frame_make_writable; Encode; pts++ } while
(--videoPendingFrames)` loop of `CFrameTask::operator()` (lines 405-421):
encodes `pending` duplicates starting at timestamp `pts`; a failure at
iteration `k` (counted from 0) abandons the remaining duplicates and
reports `none` so the caller runs `Cleanup`. -/
def encodeLoop (failAt : Option Nat) : Nat → Nat → List Ev × Option Nat
  | pts, 0 => ([], some pts)
  | pts, pending + 1 =>
    if failAt = some 0 then ([], none)
    else
      let (evs, r) := encodeLoop (failAt.map (· - 1)) (pts + 1) pending
      (Ev.ioEncodeFrame pts :: evs, r)

/-- `CFrameTask::operator()` (lines 304-423).  A null pixel pointer skips
the whole task before the screenshot loop.  Screenshots are drained first,
each attempted independently.  Video encoding runs only when
`srcFrame->videoPendingFrames && parent.videoFile`; conversion or encode
failure triggers `parent.Cleanup()` (the container is open there, so that
`Cleanup` is well defined).  The source dereferences `parent.context` and
`parent.dstFrame` on that path, so their absence is undefined behaviour
(`none`). -/
def execFrameTask (f : FrameHandle) (eo : FrameOutcome) (s : CVideoRecorder) :
    Option (CVideoRecorder × List Ev) :=
  match f.frameData.pixels with
  | none => some (s, [Ev.warnInvalidFrame])
  | some _ =>
    let saveEvs := f.screenshotPaths.map Ev.saveScreenshot
    if f.videoPendingFrames ≠ 0 ∧ s.videoFile.isSome then
      match s.videoFile, s.context, s.dstFrame with
      | some vf, some _, some df =>
        if f.frameData.format = .r10g10b10a2 ∧ eo.convertOk = false then
          some ((cleanupCore vf s).1, saveEvs ++ (cleanupCore vf s).2)
        else if eo.cvtCtxOk = false then
          some ((cleanupCore vf s).1, saveEvs ++ (cleanupCore vf s).2)
        else
          match encodeLoop eo.encodeFailAt df.pts f.videoPendingFrames with
          | (eevs, none) =>
            some ((cleanupCore vf s).1, saveEvs ++ eevs ++ (cleanupCore vf s).2)
          | (eevs, some pts) =>
            some ({ s with dstFrame := some { df with pts := pts } },
                  saveEvs ++ eevs)
      | _, _, _ => none
    else
      some (s, saveEvs)

/-- The `try` block of `CStartVideoRecordRequest::operator()` (lines
436-579), entered after the implicit stop, so `parent.videoFile` is null.
Each failure branch reproduces the source's action: log and return, or log
and `Cleanup()` — the latter is undefined behaviour (`none` via
`cleanupRun`) while `videoFile` is still null (codec-open, frame-alloc,
frame-buffer and output-alloc failures), and a proper teardown afterwards.
`crf`/`preset` option failures only log and are not modelled as events. -/
def execStartBody (req : StartReq) (oc : StartOutcome) (s : CVideoRecorder) :
    Option (CVideoRecorder × List Ev) :=
  if oc.findOk = false then
    -- FindEncoder returned null: `throw "Fail to find codec"`, caught below
    some (s, [Ev.logStartFailed])
  else if oc.allocCtxOk = false then
    -- context.reset(avcodec_alloc_context3(codec)) left context null
    some ({ s with context := none }, [Ev.logStartFailed])
  else
    let ctx : CodecCtx :=
      { width := and32not1 req.width, height := and32not1 req.height,
        timeBaseFps := if req.highFPS then highFPS else lowFPS }
    let s2 := { s with context := some ctx }
    if oc.codecOpenOk = false then
      (cleanupRun s2).map fun p => (p.1, [Ev.logStartFailed] ++ p.2)
    else if oc.frameAllocOk = false then
      (cleanupRun { s2 with dstFrame := none }).map
        fun p => (p.1, [Ev.logStartFailed] ++ p.2)
    else
      let df : DstFrame :=
        { fmt10 := req.tenBit, width := ctx.width, height := ctx.height,
          pts := 0 }
      let s3 := { s2 with dstFrame := some df }
      if oc.frameBufOk = false then
        (cleanupRun s3).map fun p => (p.1, [Ev.logStartFailed] ++ p.2)
      else if oc.outputAllocOk = false then
        (cleanupRun s3).map fun p => (p.1, [Ev.logStartFailed] ++ p.2)
      else
        let vf : VideoFile := { pb := false, filename := req.filename }
        let s4 := { s3 with videoFile := some vf }
        if oc.streamOk = false then
          some ((cleanupCore vf s4).1,
                [Ev.sessionOpened, Ev.logStartFailed] ++ (cleanupCore vf s4).2)
        else
          let s5 := { s4 with videoStream := true }
          if oc.paramsOk = false then
            some ((cleanupCore vf s5).1,
                  [Ev.sessionOpened, Ev.logStartFailed] ++ (cleanupCore vf s5).2)
          else if oc.avioOpenOk = false then
            some ((cleanupCore vf s5).1,
                  [Ev.sessionOpened, Ev.logStartFailed] ++ (cleanupCore vf s5).2)
          else
            let vf2 : VideoFile := { vf with pb := true }
            let s6 := { s5 with videoFile := some vf2 }
            if oc.headerOk = false then
              some ((cleanupCore vf2 s6).1,
                    [Ev.sessionOpened, Ev.ioOpenFile, Ev.logStartFailed]
                      ++ (cleanupCore vf2 s6).2)
            else
              some (s6, [Ev.sessionOpened, Ev.ioOpenFile, Ev.ioWriteHeader])

/-- `CStartVideoRecordRequest::operator()` (lines 425-580): warn when the
previous session was not explicitly stopped, execute an implicit stop if a
container is open, then run the session-setup body. -/
def execStart (req : StartReq) (oc : StartOutcome) (s : CVideoRecorder) :
    Option (CVideoRecorder × List Ev) :=
  let warn := if req.matchedStop then [] else [Ev.warnUnmatchedStart]
  match s.videoFile with
  | some _ =>
    let (s1, stopEvs) := execStop true s
    (execStartBody req oc s1).map fun p => (p.1, warn ++ stopEvs ++ p.2)
  | none =>
    (execStartBody req oc s).map fun p => (p.1, warn ++ p.2)

/-- Dispatch of `ITask::operator()` over the three task variants. -/
def execTask : Task → CVideoRecorder → Option (CVideoRecorder × List Ev)
  | .frame f eo, s => execFrameTask f eo s
  | .start req oc, s => execStart req oc s
  | .stop m, s => some (execStop m s)

/-- Sequential execution of a list of tasks by the worker, concatenating
their event traces; undefined behaviour anywhere poisons the run. -/
def runTasks : List Task → CVideoRecorder → Option (CVideoRecorder × List Ev)
  | [], s => some (s, [])
  | t :: ts, s =>
    match execTask t s with
    | none => none
    | some (s1, e1) =>
      match runTasks ts s1 with
      | none => none
      | some (s2, e2) => some (s2, e1 ++ e2)

/-- One iteration of the `CVideoRecorder::Process` worker loop (lines
670-689) viewed through the queue: if the queue is empty or the front task
is not ready the worker waits (`none`); otherwise it pops the front task
and executes it. -/
def processStep (q : List Task) : Option (Task × List Task) :=
  match q with
  | [] => none
  | t :: rest => if taskReady t then some (t, rest) else none

/-- Interleaved operations on the shared queue: a producer `push_back`
(`SampleFrame`/`StartRecordImpl`/`StopRecord`, lines 779, 808, 840) or one
worker loop iteration. -/
inductive QOp where
  | push (t : Task)
  | step
deriving DecidableEq

/-- Run a list of queue operations over (queue, executed-so-far): a push
appends at the back, a worker step executes the front task when ready and
otherwise changes nothing (the worker blocks). -/
def runOps : List QOp → List Task × List Task → List Task × List Task
  | [], st => st
  | .push t :: ops, (q, ex) => runOps ops (q ++ [t], ex)
  | .step :: ops, (q, ex) =>
    match processStep q with
    | some (t, rest) => runOps ops (rest, ex ++ [t])
    | none => runOps ops (q, ex)

/-- The tasks pushed by a list of queue operations, in submission order. -/
def pushedTasks : List QOp → List Task
  | [] => []
  | .push t :: ops => t :: pushedTasks ops
  | .step :: ops => pushedTasks ops

/-- The predicate of `CFrame::Cancel`'s identity scan (lines 649-654):
`dynamic_cast` the queued task to `CFrameTask` and compare the stored
`srcFrame` pointer with `this` (pointer identity is the handle `id`). -/
def frameTaskMatches (fid : Nat) : Task → Bool
  | .frame f _ => f.id == fid
  | _ => false

/-- `CFrame::Cancel` (lines 638-667) acting on the queue: `find_if` the
first matching task and `erase` it; traversal stops at the first match and
an absent match leaves the queue unchanged. -/
def cancel (fid : Nat) : List Task → List Task
  | [] => []
  | t :: rest => if frameTaskMatches fid t then rest else t :: cancel fid rest

/-- State effect of `CVideoRecorder::Error(const std::exception &, ...)`
(lines 173-203).  The real function first waits for the worker to drain the
queue (a concurrency aspect outside this sequential model) and then prints;
its only state mutation is on the `CLEAN` status with an open container:
`Cleanup()` followed by `taskQueue.clear()`. -/
def errorEffect (s : CVideoRecorder) : CVideoRecorder :=
  match s.status with
  | .clean =>
    match s.videoFile with
    | some vf => { (cleanupCore vf s).1 with taskQueue := [] }
    | none => s
  | _ => s

/-- One call's worth of input to `SampleFrame`: the value of `clock::now()`,
the frame data and identity the producer's callback supplies, the success
oracle for the later task execution, and whether creating/enqueuing the
task throws a non-system exception (`std::bad_alloc` from `make_unique` or
`push_back`). -/
structure SampleIn where
  now : Nat
  fd : FrameData
  fid : Nat
  eo : FrameOutcome
  fail : Bool
deriving DecidableEq

/-- One invocation of `CVideoRecorder::SampleFrame` (lines 751-798) without
its retry: back up `nextFrame`; when recording and the deadline has passed,
advance the pacing state; when frames are pending or screenshots are
queued, build the `CFrame` from the opaque tuple (moving the recorder's
screenshot queue and the pending count into it) and push a `CFrameTask`.
On a non-system exception `nextFrame` is restored (the screenshot queue was
already moved from) and `Error` runs; the returned flag reports whether the
exception path was taken. -/
def sampleFrameAttempt (inp : SampleIn) (s : CVideoRecorder) :
    CVideoRecorder × Bool :=
  let backup := s.nextFrame
  let (nf, pending) :=
    if s.recordMode ≠ RecordMode.stopped ∧ s.nextFrame ≤ inp.now then
      match s.recordMode with
      | .lowFPS => advanceFrame lowFPS inp.now s.nextFrame
      | .highFPS => advanceFrame highFPS inp.now s.nextFrame
      | .stopped => (s.nextFrame, 0)
    else (s.nextFrame, 0)
  if pending ≠ 0 ∨ s.screenshotPaths ≠ [] then
    if inp.fail then
      (errorEffect { s with nextFrame := backup, screenshotPaths := [] }, true)
    else
      let f : FrameHandle :=
        { id := inp.fid, screenshotPaths := s.screenshotPaths,
          videoPendingFrames := pending, ready := false, frameData := inp.fd }
      ({ s with nextFrame := nf, screenshotPaths := [],
                taskQueue := s.taskQueue ++ [Task.frame f inp.eo] }, false)
  else
    (s, false)

/-- The shared retry pattern of the four public calls' `catch
(const std::exception &)` blocks: after a failed attempt, if `status` is
`OK`, set it to the call's flag value, recurse once, and set it back to
`OK`; otherwise return.  The list supplies one oracle per attempt and the
`Nat` counts the attempts actually made. -/
def withRetry {α : Type} (attempt : α → CVideoRecorder → CVideoRecorder × Bool)
    (flag : Status) : List α → CVideoRecorder → CVideoRecorder × Nat
  | [], s => (s, 0)
  | a :: rest, s =>
    let (s1, failed) := attempt a s
    if failed then
      if s1.status = Status.ok then
        let (s3, n) := withRetry attempt flag rest { s1 with status := flag }
        ({ s3 with status := Status.ok }, n + 1)
      else (s1, 1)
    else (s1, 1)

/-- `CVideoRecorder::SampleFrame` with its recursive retry (status flag
`RETRY`, lines 786-796). -/
def sampleFrameList : List SampleIn → CVideoRecorder → CVideoRecorder × Nat :=
  withRetry sampleFrameAttempt .retry

/-- Arguments of `CVideoRecorder::StartRecord` (line 829) plus the worker
side success oracle for the task it enqueues. -/
structure StartArgs where
  filename : String
  width : Nat
  height : Nat
  tenBit : Bool
  highFPS : Bool
  codecID : Codec
  crf : Int
  preset : Preset
  oc : StartOutcome
deriving DecidableEq

/-- One invocation of `CVideoRecorder::StartRecordImpl` (lines 801-827)
without its retry: construct the start task with `matchedStop` computed as
`recordMode == RecordMode::STOPPED`, push it, then (still under the lock)
switch `recordMode` and reset the pacing deadline to `clock::now()`.  On a
push failure nothing is mutated (the retry reuses the already-built task,
whose `matchedStop` is unchanged because a failed push changed no state). -/
def startRecordAttempt (args : StartArgs) (inp : Nat × Bool)
    (s : CVideoRecorder) : CVideoRecorder × Bool :=
  if inp.2 then (errorEffect s, true)
  else
    let req : StartReq :=
      { filename := args.filename, width := args.width, height := args.height,
        tenBit := args.tenBit, highFPS := args.highFPS,
        codecID := args.codecID, crf := args.crf, preset := args.preset,
        matchedStop := s.recordMode = RecordMode.stopped }
    ({ s with taskQueue := s.taskQueue ++ [Task.start req args.oc],
              recordMode := if args.highFPS then .highFPS else .lowFPS,
              nextFrame := inp.1 }, false)

/-- `CVideoRecorder::StartRecordImpl` with its recursive retry (status flag
`RETRY`, lines 817-826); each attempt is given the `clock::now()` it would
store and whether its queue push throws. -/
def startRecordList (args : StartArgs) :
    List (Nat × Bool) → CVideoRecorder → CVideoRecorder × Nat :=
  withRetry (startRecordAttempt args) .retry

/-- One invocation of `CVideoRecorder::StopRecord` (lines 834-858) without
its retry: build the stop task with `matchedStart` computed as
`recordMode != RecordMode::STOPPED`, push it, then switch `recordMode` to
`STOPPED`. -/
def stopRecordAttempt (fail : Bool) (s : CVideoRecorder) :
    CVideoRecorder × Bool :=
  if fail then (errorEffect s, true)
  else
    ({ s with
         taskQueue :=
           s.taskQueue ++ [Task.stop (s.recordMode ≠ RecordMode.stopped)],
         recordMode := .stopped }, false)

/-- `CVideoRecorder::StopRecord` with its recursive retry; its status flag
is `CLEAN` (line 853), unlike the other three calls. -/
def stopRecordList : List Bool → CVideoRecorder → CVideoRecorder × Nat :=
  withRetry stopRecordAttempt .clean

/-- One invocation of `CVideoRecorder::Screenshot` (lines 860-877) without
its retry: push the destination path onto the screenshot queue. -/
def screenshotAttempt (path : String) (fail : Bool) (s : CVideoRecorder) :
    CVideoRecorder × Bool :=
  if fail then (errorEffect s, true)
  else ({ s with screenshotPaths := s.screenshotPaths ++ [path] }, false)

/-- `CVideoRecorder::Screenshot` with its recursive retry (status flag
`RETRY`, lines 870-875). -/
def screenshotList (path : String) :
    List Bool → CVideoRecorder → CVideoRecorder × Nat :=
  withRetry (screenshotAttempt path) .retry

/-- Session-count bookkeeping over the event trace: `sessionOpened`
increments, `sessionClosed` decrements, everything else is neutral. -/
def evStep (c : Nat) : Ev → Nat
  | .sessionOpened => c + 1
  | .sessionClosed => c - 1
  | _ => c

/-- The session count after a trace, starting from `c`. -/
def openAfter (c : Nat) (evs : List Ev) : Nat := evs.foldl evStep c

/-- The session counts observed after each event of a trace. -/
def openSteps (c : Nat) : List Ev → List Nat
  | [] => []
  | e :: es => evStep c e :: openSteps (evStep c e) es

/-- The session count represented by a recorder state: 1 when a container
is open, 0 otherwise. -/
def openAt (s : CVideoRecorder) : Nat := if s.videoFile.isSome then 1 else 0

/-- Events that leave the session count unchanged. -/
def evNeutral : Ev → Bool
  | .sessionOpened => false
  | .sessionClosed => false
  | _ => true

/-- Test for the `sessionOpened` event, used to look at the part of a trace
before the first session open. -/
def isSessionOpened : Ev → Bool
  | .sessionOpened => true
  | _ => false

/-- A concrete valid producer frame, used by witnesses. -/
def sampleFD : FrameData := ⟨.b8g8r8a8, 4, 4, 16, some 1⟩

/-- A concrete frame whose pixel pointer is null, used by witnesses. -/
def nullFD : FrameData := ⟨.b8g8r8a8, 4, 4, 16, none⟩

/-- A concrete start request: `StartRecord("a.mp4", 640, 480, 8-bit,
30 fps, H264, crf unset, Default preset)` with a matched previous stop. -/
def c6Req : StartReq :=
  ⟨"a.mp4", 640, 480, false, false, .h264, -1, .Default, true⟩

/-- A start execution in which everything succeeds except `avcodec_open2`. -/
def c6Oc : StartOutcome := { StartOutcome.allOk with codecOpenOk := false }

/-- C1 counterexample: at 30 fps, a gap of `10^8` ns past the deadline
(exactly 3 frame intervals) makes `AdvanceFrame` report 4 pending frames,
not the claimed `⌈Δt·F⌉ = 3`, and it advances the deadline by
133333333 ns, which is not exactly 4 frame intervals
(`133333333·30 ≠ 4·10^9`). -/
theorem C1_pacing_counterexample :
    (advanceFrame 30 (10 ^ 8) 0).2 = 4
    ∧ specPendingCount 30 (10 ^ 8 - 0) = 3
    ∧ (4 : Nat) ≠ 3
    ∧ (advanceFrame 30 (10 ^ 8) 0).1 = 133333333
    ∧ 133333333 * 30 ≠ 4 * nanosPerSec := by
  refine ⟨by decide, by decide, by decide, by decide, by decide⟩

/-- C1 (amended): while recording at frame rate `F ∈ {30, 60}`, a call that
finds the clock `now` at or past the deadline `nf0` reports
`⌊Δt·F⌋ + 1` pending frames (with `Δt = now - nf0` in nanoseconds), which
equals the claimed `⌈Δt·F⌉` exactly when `Δt·F` is not a whole number of
frames; the deadline advances by that many frame intervals truncated to
whole clock ticks, `⌊pending·10^9/F⌋` ns.  The last conjunct shows the
computed pending count and deadline are exactly what `SampleFrame` stores
into the frame request and into `nextFrame`. -/
theorem C1_pacing_amended (fps now nf0 : Nat)
    (hf : fps = 30 ∨ fps = 60) (_h : nf0 ≤ now) :
    (advanceFrame fps now nf0).2 = (now - nf0) * fps / nanosPerSec + 1
    ∧ (¬ (nanosPerSec ∣ (now - nf0) * fps) →
        (advanceFrame fps now nf0).2 = specPendingCount fps (now - nf0))
    ∧ (advanceFrame fps now nf0).1
        = nf0 + ((now - nf0) * fps / nanosPerSec + 1) * nanosPerSec / fps
    ∧ (∀ inp s, s.recordMode = RecordMode.lowFPS → s.nextFrame ≤ inp.now →
        inp.fail = false →
        sampleFrameAttempt inp s =
          ({ s with nextFrame := (advanceFrame lowFPS inp.now s.nextFrame).1,
                    screenshotPaths := [],
                    taskQueue := s.taskQueue
                      ++ [Task.frame
                            { id := inp.fid,
                              screenshotPaths := s.screenshotPaths,
                              videoPendingFrames :=
                                (advanceFrame lowFPS inp.now s.nextFrame).2,
                              ready := false, frameData := inp.fd } inp.eo] },
           false)) := by
  refine ⟨by simp [advanceFrame], ?_, by simp [advanceFrame], ?_⟩
  · intro hnd
    rcases hf with rfl | rfl <;>
      · simp only [advanceFrame, specPendingCount, cdiv, nanosPerSec] at hnd ⊢
        omega
  · intro inp s h1 h2 h3
    simp only [sampleFrameAttempt, h1, h3]
    have hcond : (RecordMode.lowFPS ≠ RecordMode.stopped ∧ s.nextFrame ≤ inp.now) :=
      ⟨by simp, h2⟩
    simp only [hcond, if_pos, advanceFrame, lowFPS]
    simp

/-- C1 witness at 30 fps, deadline 0, now `10^8` ns. -/
theorem C1_pacing_witness :
    ((30 : Nat) = 30 ∨ (30 : Nat) = 60) ∧ (0 : Nat) ≤ 10 ^ 8 ∧
    ((advanceFrame 30 (10 ^ 8) 0).2 = (10 ^ 8 - 0) * 30 / nanosPerSec + 1
     ∧ (¬ (nanosPerSec ∣ (10 ^ 8 - 0) * 30) →
         (advanceFrame 30 (10 ^ 8) 0).2 = specPendingCount 30 (10 ^ 8 - 0))
     ∧ (advanceFrame 30 (10 ^ 8) 0).1
         = 0 + ((10 ^ 8 - 0) * 30 / nanosPerSec + 1) * nanosPerSec / 30
     ∧ (∀ inp s, s.recordMode = RecordMode.lowFPS → s.nextFrame ≤ inp.now →
         inp.fail = false →
         sampleFrameAttempt inp s =
           ({ s with nextFrame := (advanceFrame lowFPS inp.now s.nextFrame).1,
                     screenshotPaths := [],
                     taskQueue := s.taskQueue
                       ++ [Task.frame
                             { id := inp.fid,
                               screenshotPaths := s.screenshotPaths,
                               videoPendingFrames :=
                                 (advanceFrame lowFPS inp.now s.nextFrame).2,
                               ready := false, frameData := inp.fd } inp.eo] },
            false))) :=
  ⟨Or.inl rfl, by decide, C1_pacing_amended 30 (10 ^ 8) 0 (Or.inl rfl) (by decide)⟩

/-- C3: the worker executes queued tasks strictly in FIFO submission order.
First conjunct: over any interleaving of pushes and worker steps, the
executed tasks followed by the remaining queue always equal the initial
contents followed by the pushes in submission order — so the executed
sequence is a prefix of submission order, with no reordering or skipping.
Second conjunct: a not-ready front task blocks the worker completely (a
step changes nothing, so nothing behind it runs).  Third conjunct: a worker
iteration only ever executes the front task, and only when it is ready. -/
theorem C3_worker_fifo :
    (∀ ops q ex,
       (runOps ops (q, ex)).2 ++ (runOps ops (q, ex)).1
         = (ex ++ q) ++ pushedTasks ops)
    ∧ (∀ t rest ex, taskReady t = false →
        runOps [QOp.step] (t :: rest, ex) = (t :: rest, ex))
    ∧ (∀ q t q', processStep q = some (t, q') →
        q = t :: q' ∧ taskReady t = true) := by
  refine ⟨?_, ?_, ?_⟩
  · intro ops
    induction ops with
    | nil => intro q ex; simp [runOps, pushedTasks]
    | cons op ops ih =>
      intro q ex
      cases op with
      | push t => simp [runOps, pushedTasks, ih]
      | step =>
        cases q with
        | nil => simpa [runOps, processStep, pushedTasks] using ih [] ex
        | cons t rest =>
          by_cases hr : taskReady t
          · simpa [runOps, processStep, hr, pushedTasks] using ih rest (ex ++ [t])
          · simpa [runOps, processStep, hr, pushedTasks] using ih (t :: rest) ex
  · intro t rest ex h
    simp [runOps, processStep, h]
  · intro q t q' h
    cases q with
    | nil => simp [processStep] at h
    | cons a as =>
      by_cases hr : taskReady a
      · simp only [processStep, hr, if_pos] at h
        obtain ⟨rfl, rfl⟩ := Prod.mk.injEq .. ▸ Option.some.injEq .. ▸ h
        exact ⟨rfl, hr⟩
      · simp [processStep, hr] at h

/-- C3 witness: a not-ready frame task at the front blocks a ready stop
task behind it. -/
theorem C3_worker_fifo_witness :
    taskReady (Task.frame ⟨1, [], 0, false, sampleFD⟩ FrameOutcome.allOk) = false
    ∧ runOps [QOp.step]
        ([Task.frame ⟨1, [], 0, false, sampleFD⟩ FrameOutcome.allOk,
          Task.stop true], [])
        = ([Task.frame ⟨1, [], 0, false, sampleFD⟩ FrameOutcome.allOk,
            Task.stop true], []) :=
  ⟨by decide,
   C3_worker_fifo.2.1
     (Task.frame ⟨1, [], 0, false, sampleFD⟩ FrameOutcome.allOk)
     [Task.stop true] [] (by decide)⟩

/-- C4: `Cancel()` on a handle whose task is still queued removes exactly
that task (the identity scan stops at the first match, so the tasks before
it — none of which match — and all tasks after it survive unchanged), and
`Cancel()` on a handle with no queued task leaves the queue unchanged. -/
theorem C4_cancel_exact :
    (∀ fid (q : List Task), (∀ t ∈ q, frameTaskMatches fid t = false) →
       cancel fid q = q)
    ∧ (∀ fid (a b : List Task) (t : Task),
        (∀ u ∈ a, frameTaskMatches fid u = false) →
        frameTaskMatches fid t = true →
        cancel fid (a ++ t :: b) = a ++ b) := by
  constructor
  · intro fid q h
    induction q with
    | nil => rfl
    | cons t rest ih =>
      have ht := h t (List.mem_cons_self t rest)
      simp only [cancel, ht, Bool.false_eq_true, if_false]
      rw [ih fun u hu => h u (List.mem_cons_of_mem t hu)]
  · intro fid a b t ha ht
    induction a with
    | nil => simp [cancel, ht]
    | cons u rest ih =>
      have hu := ha u (List.mem_cons_self u rest)
      simp only [List.cons_append, cancel, hu, Bool.false_eq_true, if_false]
      rw [List.append_eq, ih fun v hv => ha v (List.mem_cons_of_mem u hv)]

/-- C4 witness: cancelling handle 3 removes only the first task of handle 3
and leaves a queue without it untouched. -/
theorem C4_cancel_exact_witness :
    ((∀ t ∈ [Task.stop true], frameTaskMatches 3 t = false)
      ∧ cancel 3 [Task.stop true] = [Task.stop true])
    ∧ ((∀ u ∈ [Task.stop true], frameTaskMatches 3 u = false)
        ∧ frameTaskMatches 3 (Task.frame ⟨3, [], 1, false, sampleFD⟩ FrameOutcome.allOk) = true
        ∧ cancel 3
            ([Task.stop true]
              ++ Task.frame ⟨3, [], 1, false, sampleFD⟩ FrameOutcome.allOk
                 :: [Task.stop false])
            = [Task.stop true] ++ [Task.stop false]) :=
  ⟨⟨by decide, C4_cancel_exact.1 3 [Task.stop true] (by decide)⟩,
   ⟨by decide, by decide,
    C4_cancel_exact.2 3 [Task.stop true] [Task.stop false]
      (Task.frame ⟨3, [], 1, false, sampleFD⟩ FrameOutcome.allOk)
      (by decide) (by decide)⟩⟩

/-- C5: screenshot paths queue in FIFO order (first conjunct); a pending
screenshot alone — recording stopped, so no video frames are due — makes
`SampleFrame` invoke the callback and enqueue a frame task carrying exactly
the accumulated paths in order, clearing the recorder's queue (second
conjunct); and when that task executes with a valid pixel buffer, every
attached path is saved in FIFO order even though no video session is active
(third conjunct). -/
theorem C5_screenshots_attached :
    (∀ (p : String) s,
       (screenshotAttempt p false s).1.screenshotPaths
         = s.screenshotPaths ++ [p])
    ∧ (∀ inp s, s.recordMode = RecordMode.stopped → s.screenshotPaths ≠ [] →
        inp.fail = false →
        sampleFrameAttempt inp s =
          ({ s with screenshotPaths := [],
                    taskQueue := s.taskQueue
                      ++ [Task.frame
                            { id := inp.fid,
                              screenshotPaths := s.screenshotPaths,
                              videoPendingFrames := 0, ready := false,
                              frameData := inp.fd } inp.eo] }, false))
    ∧ (∀ f eo s px, s.videoFile = none → f.frameData.pixels = some px →
        execFrameTask f eo s
          = some (s, f.screenshotPaths.map Ev.saveScreenshot)) := by
  refine ⟨?_, ?_, ?_⟩
  · intro p s; simp [screenshotAttempt]
  · intro inp s h1 h2 h3
    simp [sampleFrameAttempt, h1, h2, h3]
  · intro f eo s px hvf hpx
    simp [execFrameTask, hpx, hvf]

/-- C5 witness: one queued screenshot, recording stopped. -/
theorem C5_screenshots_attached_witness :
    ((screenshotAttempt "b.png" false initRecorder).1.screenshotPaths
       = initRecorder.screenshotPaths ++ ["b.png"])
    ∧ ({ initRecorder with screenshotPaths := ["a.png"] }.recordMode
         = RecordMode.stopped
       ∧ ({ initRecorder with screenshotPaths := ["a.png"]
            } : CVideoRecorder).screenshotPaths ≠ []
       ∧ sampleFrameAttempt ⟨5, sampleFD, 9, FrameOutcome.allOk, false⟩
           { initRecorder with screenshotPaths := ["a.png"] }
         = ({ initRecorder with
                screenshotPaths := [],
                taskQueue := initRecorder.taskQueue
                  ++ [Task.frame
                        { id := 9, screenshotPaths := ["a.png"],
                          videoPendingFrames := 0, ready := false,
                          frameData := sampleFD } FrameOutcome.allOk] }, false))
    ∧ execFrameTask ⟨9, ["a.png"], 0, true, sampleFD⟩ FrameOutcome.allOk
        initRecorder
        = some (initRecorder, [Ev.saveScreenshot "a.png"]) :=
  ⟨C5_screenshots_attached.1 "b.png" initRecorder,
   ⟨rfl, by decide,
    C5_screenshots_attached.2.1 ⟨5, sampleFD, 9, FrameOutcome.allOk, false⟩
      { initRecorder with screenshotPaths := ["a.png"] } rfl (by decide) rfl⟩,
   C5_screenshots_attached.2.2 ⟨9, ["a.png"], 0, true, sampleFD⟩
     FrameOutcome.allOk initRecorder 1 rfl rfl⟩

/-- C9: a frame task whose handle reports a null pixel pointer returns
immediately after the warning — before the screenshot-draining loop — so
the task has no other effect and none of its attached screenshot paths is
saved. -/
theorem C9_null_frame_skip (f : FrameHandle) (eo : FrameOutcome)
    (s : CVideoRecorder) (h : f.frameData.pixels = none) :
    execFrameTask f eo s = some (s, [Ev.warnInvalidFrame])
    ∧ (∀ s' evs, execFrameTask f eo s = some (s', evs) →
        ∀ p, Ev.saveScreenshot p ∉ evs) := by
  have he : execFrameTask f eo s = some (s, [Ev.warnInvalidFrame]) := by
    simp [execFrameTask, h]
  refine ⟨he, ?_⟩
  intro s' evs hev p
  rw [he] at hev
  cases hev
  simp

/-- C9 witness: a null-pixel frame with a queued screenshot path. -/
theorem C9_null_frame_skip_witness :
    (nullFD.pixels = none)
    ∧ (execFrameTask ⟨4, ["lost.png"], 2, true, nullFD⟩ FrameOutcome.allOk
         initRecorder = some (initRecorder, [Ev.warnInvalidFrame])
       ∧ (∀ s' evs,
           execFrameTask ⟨4, ["lost.png"], 2, true, nullFD⟩ FrameOutcome.allOk
             initRecorder = some (s', evs) →
           ∀ p, Ev.saveScreenshot p ∉ evs)) :=
  ⟨rfl,
   C9_null_frame_skip ⟨4, ["lost.png"], 2, true, nullFD⟩ FrameOutcome.allOk
     initRecorder rfl⟩

/-- C10: a `SampleFrame` invocation that fails with a non-system exception
while creating or enqueuing the frame task restores `nextFrame` to its
value from before the call and leaves the task queue unchanged, so the
pacing deadline and pending-frame accounting are untouched by the failed
attempt. -/
theorem C10_sample_restores_pacing (inp : SampleIn) (s : CVideoRecorder)
    (hf : inp.fail = true) (hs : s.status = Status.ok) :
    (sampleFrameAttempt inp s).1.nextFrame = s.nextFrame
    ∧ (sampleFrameAttempt inp s).1.taskQueue = s.taskQueue := by
  unfold sampleFrameAttempt
  simp only [hf]
  split <;> split <;> simp [errorEffect, hs]

/-- C10 witness: a failing sample while low-fps recording is overdue. -/
theorem C10_sample_restores_pacing_witness :
    ((⟨10 ^ 8, sampleFD, 9, FrameOutcome.allOk, true⟩ : SampleIn).fail = true)
    ∧ ({ initRecorder with recordMode := .lowFPS } : CVideoRecorder).status
        = Status.ok
    ∧ ((sampleFrameAttempt ⟨10 ^ 8, sampleFD, 9, FrameOutcome.allOk, true⟩
          { initRecorder with recordMode := .lowFPS }).1.nextFrame
         = ({ initRecorder with recordMode := .lowFPS } : CVideoRecorder).nextFrame
       ∧ (sampleFrameAttempt ⟨10 ^ 8, sampleFD, 9, FrameOutcome.allOk, true⟩
            { initRecorder with recordMode := .lowFPS }).1.taskQueue
           = ({ initRecorder with
                  recordMode := .lowFPS } : CVideoRecorder).taskQueue) :=
  ⟨rfl, rfl,
   C10_sample_restores_pacing ⟨10 ^ 8, sampleFD, 9, FrameOutcome.allOk, true⟩
     { initRecorder with recordMode := .lowFPS } rfl rfl⟩

/-- C6 (code evaluated at the failing input): with no session open, a start
task whose `avcodec_open2` fails runs `parent.Cleanup()`, which reads
`videoFile->pb` through the null `videoFile` — undefined behaviour, so the
claimed "no open session, no crash" state is never reached (first
conjunct).  Moreover the stop task that a subsequent `StopRecord` would
enqueue carries `matchedStart = true` (the record mode was already
switched), so on a session-less recorder it logs no warning and performs no
I/O at all (second conjunct: it does nothing whatsoever). -/
theorem C6_codec_open_failure :
    execStart c6Req c6Oc initRecorder = none
    ∧ execStop true initRecorder = (initRecorder, []) := by
  exact ⟨rfl, rfl⟩

/-- Helper: `Error` never changes the `status` flag. -/
theorem errorEffect_status (s : CVideoRecorder) :
    (errorEffect s).status = s.status := by
  cases hs : s.status <;> cases hv : s.videoFile <;>
    simp [errorEffect, hs, hv, cleanupCore]

/-- Helper: `Error` never changes the record mode. -/
theorem errorEffect_recordMode (s : CVideoRecorder) :
    (errorEffect s).recordMode = s.recordMode := by
  cases hs : s.status <;> cases hv : s.videoFile <;>
    simp [errorEffect, hs, hv, cleanupCore]

/-- Helper: `Error` never changes the pacing deadline. -/
theorem errorEffect_nextFrame (s : CVideoRecorder) :
    (errorEffect s).nextFrame = s.nextFrame := by
  cases hs : s.status <;> cases hv : s.videoFile <;>
    simp [errorEffect, hs, hv, cleanupCore]

/-- Helper: a `SampleFrame` attempt never changes the `status` flag. -/
theorem sampleFrameAttempt_status (inp : SampleIn) (s : CVideoRecorder) :
    ((sampleFrameAttempt inp s).1).status = s.status := by
  unfold sampleFrameAttempt
  split <;> split <;> (try split) <;> simp [errorEffect_status]

/-- Helper: a `SampleFrame` attempt never changes the record mode. -/
theorem sampleFrameAttempt_recordMode (inp : SampleIn) (s : CVideoRecorder) :
    ((sampleFrameAttempt inp s).1).recordMode = s.recordMode := by
  unfold sampleFrameAttempt
  split <;> split <;> (try split) <;> simp [errorEffect_recordMode]

/-- Helper: a failed `SampleFrame` attempt (status `OK`) restores the
pacing deadline. -/
theorem sampleFrameAttempt_nextFrame (inp : SampleIn) (s : CVideoRecorder)
    (hf : inp.fail = true) (hs : s.status = Status.ok) :
    ((sampleFrameAttempt inp s).1).nextFrame = s.nextFrame := by
  unfold sampleFrameAttempt
  simp only [hf]
  split <;> split <;> simp [errorEffect, hs]

/-- Helper: an overdue low-fps `SampleFrame` attempt whose enqueue throws
reports failure. -/
theorem sampleFrameAttempt_fails (inp : SampleIn) (s : CVideoRecorder)
    (hm : s.recordMode = RecordMode.lowFPS) (hn : s.nextFrame ≤ inp.now)
    (hf : inp.fail = true) :
    (sampleFrameAttempt inp s).2 = true := by
  simp [sampleFrameAttempt, hm, hn, hf, advanceFrame]

/-- Helper: a `StartRecordImpl` attempt never changes the `status` flag. -/
theorem startRecordAttempt_status (args : StartArgs) (inp : Nat × Bool)
    (s : CVideoRecorder) :
    ((startRecordAttempt args inp s).1).status = s.status := by
  unfold startRecordAttempt
  split <;> simp [errorEffect_status]

/-- Helper: a `StopRecord` attempt never changes the `status` flag. -/
theorem stopRecordAttempt_status (fail : Bool) (s : CVideoRecorder) :
    ((stopRecordAttempt fail s).1).status = s.status := by
  unfold stopRecordAttempt
  split <;> simp [errorEffect_status]

/-- Helper: a `Screenshot` attempt never changes the `status` flag. -/
theorem screenshotAttempt_status (path : String) (fail : Bool)
    (s : CVideoRecorder) :
    ((screenshotAttempt path fail s).1).status = s.status := by
  unfold screenshotAttempt
  split <;> simp [errorEffect_status]

/-- Helper: when the status flag is not `OK`, the retry pattern makes at
most one attempt (the `if (status == Status::OK)` guard blocks the
recursion). -/
theorem withRetry_count_of_not_ok {α : Type}
    (attempt : α → CVideoRecorder → CVideoRecorder × Bool) (flag : Status)
    (hpres : ∀ a s, ((attempt a s).1).status = s.status)
    (l : List α) (s : CVideoRecorder) (h : s.status ≠ Status.ok) :
    (withRetry attempt flag l s).2 ≤ 1 := by
  cases l with
  | nil => simp [withRetry]
  | cons a rest =>
    rcases hA : attempt a s with ⟨s1, f1⟩
    have hs1 : s1.status ≠ Status.ok := by
      have hst := hpres a s
      rw [hA] at hst
      rw [hst]
      exact h
    cases f1 <;> simp [withRetry, hA, hs1]

/-- Helper: the retry pattern never makes more than two attempts: the
retry runs with a non-`OK` status flag, so a failure during the retry is
not retried again. -/
theorem withRetry_count_le_two {α : Type}
    (attempt : α → CVideoRecorder → CVideoRecorder × Bool) (flag : Status)
    (hflag : flag ≠ Status.ok)
    (hpres : ∀ a s, ((attempt a s).1).status = s.status)
    (l : List α) (s : CVideoRecorder) :
    (withRetry attempt flag l s).2 ≤ 2 := by
  cases l with
  | nil => simp [withRetry]
  | cons a rest =>
    rcases hA : attempt a s with ⟨s1, f1⟩
    cases f1 with
    | false => simp [withRetry, hA]
    | true =>
      by_cases hok : s1.status = Status.ok
      · have hrec :
            (withRetry attempt flag rest { s1 with status := flag }).2 ≤ 1 :=
          withRetry_count_of_not_ok attempt flag hpres rest _ (by simp [hflag])
        rcases hB : withRetry attempt flag rest { s1 with status := flag }
          with ⟨s3, n⟩
        rw [hB] at hrec
        simp only [withRetry, hA, hok, if_true, hB]
        omega
      · simp [withRetry, hA, hok]

/-- Helper: when the first attempt fails with status `OK` and the single
retry fails as well, exactly two attempts are made (a third oracle is never
consulted) and the status flag ends back at `OK`. -/
theorem withRetry_two_fails {α : Type}
    (attempt : α → CVideoRecorder → CVideoRecorder × Bool) (flag : Status)
    (hflag : flag ≠ Status.ok)
    (hpres : ∀ a s, ((attempt a s).1).status = s.status)
    (a1 a2 a3 : α) (s : CVideoRecorder) (hs : s.status = Status.ok)
    (hf1 : (attempt a1 s).2 = true)
    (hf2 : (attempt a2 { (attempt a1 s).1 with status := flag }).2 = true) :
    (withRetry attempt flag [a1, a2, a3] s).2 = 2
    ∧ ((withRetry attempt flag [a1, a2, a3] s).1).status = Status.ok := by
  rcases hA1 : attempt a1 s with ⟨s1, f1⟩
  have hf1' : f1 = true := by rw [hA1] at hf1; exact hf1
  have hs1 : s1.status = Status.ok := by
    have hst := hpres a1 s
    rw [hA1] at hst
    exact hst.trans hs
  rcases hA2 : attempt a2 { s1 with status := flag } with ⟨s3, f3⟩
  have hf3 : f3 = true := by rw [hA1] at hf2; rw [hA2] at hf2; exact hf2
  have hs3 : s3.status = flag := by
    have hst := hpres a2 { s1 with status := flag }
    rw [hA2] at hst
    exact hst
  subst hf1' hf3
  simp [withRetry, hA1, hA2, hs1, hs3, hflag]

/-- C7: each of the four public calls retries a transient submission
failure exactly once: when the status flag is not `OK` no retry happens
(conjuncts 1, 4, 7, 10), at most two attempts are ever made however many
failures occur (conjuncts 2, 5, 8, 11), and an always-failing oracle
triple produces exactly two attempts — the third oracle is never consulted
because the status flag is away from `OK` during the retry — with the flag
restored to `OK` afterwards (conjuncts 3, 6, 9, 12). -/
theorem C7_retry_exactly_once :
    (∀ inps s, s.status ≠ Status.ok → (sampleFrameList inps s).2 ≤ 1)
    ∧ (∀ inps s, (sampleFrameList inps s).2 ≤ 2)
    ∧ (∀ i1 i2 i3 s, s.status = Status.ok →
        s.recordMode = RecordMode.lowFPS →
        s.nextFrame ≤ i1.now → s.nextFrame ≤ i2.now →
        i1.fail = true → i2.fail = true →
        (sampleFrameList [i1, i2, i3] s).2 = 2
        ∧ ((sampleFrameList [i1, i2, i3] s).1).status = Status.ok)
    ∧ (∀ args l s, s.status ≠ Status.ok → (startRecordList args l s).2 ≤ 1)
    ∧ (∀ args l s, (startRecordList args l s).2 ≤ 2)
    ∧ (∀ args n1 n2 n3 s, s.status = Status.ok →
        (startRecordList args [(n1, true), (n2, true), (n3, true)] s).2 = 2
        ∧ ((startRecordList args
              [(n1, true), (n2, true), (n3, true)] s).1).status = Status.ok)
    ∧ (∀ l s, s.status ≠ Status.ok → (stopRecordList l s).2 ≤ 1)
    ∧ (∀ l s, (stopRecordList l s).2 ≤ 2)
    ∧ (∀ s, s.status = Status.ok →
        (stopRecordList [true, true, true] s).2 = 2
        ∧ ((stopRecordList [true, true, true] s).1).status = Status.ok)
    ∧ (∀ p l s, s.status ≠ Status.ok → (screenshotList p l s).2 ≤ 1)
    ∧ (∀ p l s, (screenshotList p l s).2 ≤ 2)
    ∧ (∀ p s, s.status = Status.ok →
        (screenshotList p [true, true, true] s).2 = 2
        ∧ ((screenshotList p [true, true, true] s).1).status = Status.ok) := by
  refine ⟨?_, ?_, ?_, ?_, ?_, ?_, ?_, ?_, ?_, ?_, ?_, ?_⟩
  · intro inps s h
    exact withRetry_count_of_not_ok _ _ sampleFrameAttempt_status inps s h
  · intro inps s
    exact withRetry_count_le_two _ _ (by simp) sampleFrameAttempt_status inps s
  · intro i1 i2 i3 s hs hm hn1 hn2 hf1 hf2
    refine withRetry_two_fails _ _ (by simp) sampleFrameAttempt_status
      i1 i2 i3 s hs (sampleFrameAttempt_fails i1 s hm hn1 hf1) ?_
    refine sampleFrameAttempt_fails i2 _ ?_ ?_ hf2
    · show ((sampleFrameAttempt i1 s).1).recordMode = RecordMode.lowFPS
      rw [sampleFrameAttempt_recordMode]
      exact hm
    · show ((sampleFrameAttempt i1 s).1).nextFrame ≤ i2.now
      rw [sampleFrameAttempt_nextFrame i1 s hf1 hs]
      exact hn2
  · intro args l s h
    exact withRetry_count_of_not_ok _ _ (startRecordAttempt_status args) l s h
  · intro args l s
    exact withRetry_count_le_two _ _ (by simp) (startRecordAttempt_status args) l s
  · intro args n1 n2 n3 s hs
    exact withRetry_two_fails _ _ (by simp) (startRecordAttempt_status args)
      (n1, true) (n2, true) (n3, true) s hs (by simp [startRecordAttempt])
      (by simp [startRecordAttempt])
  · intro l s h
    exact withRetry_count_of_not_ok _ _ stopRecordAttempt_status l s h
  · intro l s
    exact withRetry_count_le_two _ _ (by simp) stopRecordAttempt_status l s
  · intro s hs
    exact withRetry_two_fails _ _ (by simp) stopRecordAttempt_status
      true true true s hs (by simp [stopRecordAttempt])
      (by simp [stopRecordAttempt])
  · intro p l s h
    exact withRetry_count_of_not_ok _ _ (screenshotAttempt_status p) l s h
  · intro p l s
    exact withRetry_count_le_two _ _ (by simp) (screenshotAttempt_status p) l s
  · intro p s hs
    exact withRetry_two_fails _ _ (by simp) (screenshotAttempt_status p)
      true true true s hs (by simp [screenshotAttempt])
      (by simp [screenshotAttempt])

/-- C7 witness: always-failing stop and screenshot submissions from a fresh
recorder each make exactly two attempts and end with status `OK`. -/
theorem C7_retry_exactly_once_witness :
    initRecorder.status = Status.ok
    ∧ ((stopRecordList [true, true, true] initRecorder).2 = 2
       ∧ ((stopRecordList [true, true, true] initRecorder).1).status
           = Status.ok) :=
  ⟨rfl, C7_retry_exactly_once.2.2.2.2.2.2.2.2.1 initRecorder rfl⟩

/-- Helper: on 32-bit unsigned values, `w & ~1` clears the lowest bit,
i.e. rounds `w` down to the nearest even number. -/
theorem and32not1_even (w : Nat) (h : w < 2 ^ 32) :
    and32not1 w = 2 * (w / 2) := by
  unfold and32not1
  apply Nat.eq_of_testBit_eq
  intro i
  cases i with
  | zero =>
    simp only [Nat.testBit_and, Nat.testBit_zero]
    have h2 : 2 * (w / 2) % 2 = 0 := Nat.mul_mod_right 2 (w / 2)
    have h3 : (2 ^ 32 - 2) % 2 = 0 := by norm_num
    simp [h2, h3]
  | succ i =>
    rw [Nat.testBit_and, Nat.testBit_add_one (2 ^ 32 - 2),
        Nat.testBit_add_one (2 * (w / 2))]
    have h1 : (2 ^ 32 - 2) / 2 = 2 ^ 31 - 1 := by norm_num
    have h2 : 2 * (w / 2) / 2 = w / 2 := by omega
    rw [h1, h2, Nat.testBit_two_pow_sub_one, ← Nat.testBit_add_one w]
    by_cases hi : i < 31
    · simp [hi]
    · have hb : w.testBit (i + 1) = false :=
        Nat.testBit_lt_two_pow
          (lt_of_lt_of_le h (Nat.pow_le_pow_right (by norm_num) (by omega)))
      simp [hb, hi]

/-- Helper: a fully successful start-session body configures the codec
context with the masked dimensions, the destination frame with the same
dimensions, and opens the output container. -/
theorem execStartBody_allOk (req : StartReq) (s : CVideoRecorder) :
    execStartBody req StartOutcome.allOk s =
      some ({ s with
                context := some ⟨and32not1 req.width, and32not1 req.height,
                                 if req.highFPS then highFPS else lowFPS⟩,
                dstFrame := some ⟨req.tenBit, and32not1 req.width,
                                  and32not1 req.height, 0⟩,
                videoFile := some ⟨true, req.filename⟩,
                videoStream := true },
            [Ev.sessionOpened, Ev.ioOpenFile, Ev.ioWriteHeader]) := rfl

/-- C8: a successful start-session task configures the encoder context
with the requested dimensions rounded down to the nearest even number
(`width & ~1`, `height & ~1`), and the destination frame buffer uses the
same rounded dimensions. -/
theorem C8_even_dimensions (req : StartReq) (s : CVideoRecorder)
    (hw : req.width < 2 ^ 32) (hh : req.height < 2 ^ 32) :
    ∃ s' evs, execStart req StartOutcome.allOk s = some (s', evs)
    ∧ ∃ ctx df, s'.context = some ctx ∧ s'.dstFrame = some df
    ∧ ctx.width = 2 * (req.width / 2) ∧ ctx.height = 2 * (req.height / 2)
    ∧ df.width = ctx.width ∧ df.height = ctx.height := by
  cases hv : s.videoFile with
  | none =>
    have he :
        execStart req StartOutcome.allOk s =
          some ({ s with
                    context := some ⟨and32not1 req.width, and32not1 req.height,
                                     if req.highFPS then highFPS else lowFPS⟩,
                    dstFrame := some ⟨req.tenBit, and32not1 req.width,
                                      and32not1 req.height, 0⟩,
                    videoFile := some ⟨true, req.filename⟩,
                    videoStream := true },
                (if req.matchedStop then [] else [Ev.warnUnmatchedStart])
                  ++ [Ev.sessionOpened, Ev.ioOpenFile, Ev.ioWriteHeader]) := by
      simp [execStart, hv, execStartBody_allOk]
    exact ⟨_, _, he, _, _, rfl, rfl, and32not1_even req.width hw,
           and32not1_even req.height hh, rfl, rfl⟩
  | some vf =>
    have he :
        execStart req StartOutcome.allOk s =
          some ({ s with
                    context := some ⟨and32not1 req.width, and32not1 req.height,
                                     if req.highFPS then highFPS else lowFPS⟩,
                    dstFrame := some ⟨req.tenBit, and32not1 req.width,
                                      and32not1 req.height, 0⟩,
                    videoFile := some ⟨true, req.filename⟩,
                    videoStream := true },
                (if req.matchedStop then [] else [Ev.warnUnmatchedStart])
                  ++ [Ev.ioStopEncode, Ev.ioWriteTrailer, Ev.ioCloseFile,
                      Ev.sessionClosed, Ev.logStopResult true]
                  ++ [Ev.sessionOpened, Ev.ioOpenFile, Ev.ioWriteHeader]) := by
      simp [execStart, hv, execStop, cleanupCore, execStartBody_allOk]
    exact ⟨_, _, he, _, _, rfl, rfl, and32not1_even req.width hw,
           and32not1_even req.height hh, rfl, rfl⟩

/-- C8 witness: odd 641×481 dimensions are configured as 640×480. -/
theorem C8_even_dimensions_witness :
    (641 : Nat) < 2 ^ 32 ∧ (481 : Nat) < 2 ^ 32 ∧
    (∃ s' evs,
       execStart ⟨"v.mp4", 641, 481, false, false, .h264, -1, .Default, true⟩
           StartOutcome.allOk initRecorder = some (s', evs)
       ∧ ∃ ctx df, s'.context = some ctx ∧ s'.dstFrame = some df
       ∧ ctx.width = 2 * (641 / 2) ∧ ctx.height = 2 * (481 / 2)
       ∧ df.width = ctx.width ∧ df.height = ctx.height) :=
  ⟨by decide, by decide,
   C8_even_dimensions ⟨"v.mp4", 641, 481, false, false, .h264, -1, .Default, true⟩
     initRecorder (by decide) (by decide)⟩

/-- Helper: the session count after a concatenated trace. -/
theorem openAfter_append (c : Nat) (l1 l2 : List Ev) :
    openAfter c (l1 ++ l2) = openAfter (openAfter c l1) l2 := by
  simp [openAfter, List.foldl_append]

/-- Helper: the session counts along a concatenated trace. -/
theorem openSteps_append (c : Nat) (l1 l2 : List Ev) :
    openSteps c (l1 ++ l2)
      = openSteps c l1 ++ openSteps (openAfter c l1) l2 := by
  induction l1 generalizing c with
  | nil => simp [openSteps, openAfter]
  | cons e es ih => simp [openSteps, openAfter, ih]

/-- Helper: a trace of neutral events leaves the session count unchanged. -/
theorem openAfter_neutral (c : Nat) (l : List Ev)
    (h : ∀ e ∈ l, evNeutral e = true) : openAfter c l = c := by
  induction l generalizing c with
  | nil => rfl
  | cons e es ih =>
    have he := h e (List.mem_cons_self e es)
    have hstep : evStep c e = c := by
      cases e <;> first | rfl | simp [evNeutral] at he
    rw [show openAfter c (e :: es) = openAfter (evStep c e) es from rfl, hstep]
    exact ih c (fun x hx => h x (List.mem_cons_of_mem e hx))

/-- Helper: along a trace of neutral events every count equals the initial
one. -/
theorem openSteps_neutral (c : Nat) (l : List Ev)
    (h : ∀ e ∈ l, evNeutral e = true) : ∀ x ∈ openSteps c l, x = c := by
  induction l generalizing c with
  | nil => intro x hx; simp [openSteps] at hx
  | cons e es ih =>
    intro x hx
    have he := h e (List.mem_cons_self e es)
    have hstep : evStep c e = c := by
      cases e <;> first | rfl | simp [evNeutral] at he
    rw [show openSteps c (e :: es) = evStep c e :: openSteps (evStep c e) es
          from rfl, hstep] at hx
    rcases List.mem_cons.mp hx with rfl | hx'
    · rfl
    · exact ih c (fun y hy => h y (List.mem_cons_of_mem e hy)) x hx'

/-- Helper: well-bounded traces compose. -/
theorem traceOK_append {c c1 c2 : Nat} {l1 l2 : List Ev}
    (h1 : openAfter c l1 = c1 ∧ ∀ x ∈ openSteps c l1, x ≤ 1)
    (h2 : openAfter c1 l2 = c2 ∧ ∀ x ∈ openSteps c1 l2, x ≤ 1) :
    openAfter c (l1 ++ l2) = c2 ∧ ∀ x ∈ openSteps c (l1 ++ l2), x ≤ 1 := by
  obtain ⟨ha1, hs1⟩ := h1
  obtain ⟨ha2, hs2⟩ := h2
  refine ⟨by rw [openAfter_append, ha1, ha2], ?_⟩
  intro x hx
  rw [openSteps_append, ha1] at hx
  rcases List.mem_append.mp hx with hx' | hx'
  · exact hs1 x hx'
  · exact hs2 x hx'

/-- Helper: a neutral trace from a count at most 1 is well bounded. -/
theorem traceOK_neutral {c : Nat} (l : List Ev)
    (h : ∀ e ∈ l, evNeutral e = true) (hc : c ≤ 1) :
    openAfter c l = c ∧ ∀ x ∈ openSteps c l, x ≤ 1 :=
  ⟨openAfter_neutral c l h, fun x hx => openSteps_neutral c l h x hx ▸ hc⟩

/-- Helper: a recorder state holds at most one open session. -/
theorem openAt_le_one (s : CVideoRecorder) : openAt s ≤ 1 := by
  unfold openAt; split <;> omega

/-- Helper: the encode loop only emits neutral (encode) events. -/
theorem encodeLoop_neutral (failAt : Option Nat) (pts pending : Nat) :
    ∀ e ∈ (encodeLoop failAt pts pending).1, evNeutral e = true := by
  induction pending generalizing failAt pts with
  | zero => intro e he; simp [encodeLoop] at he
  | succ n ih =>
    intro e he
    by_cases hf : failAt = some 0
    · simp [encodeLoop, hf] at he
    · simp only [encodeLoop, hf, if_false] at he
      rcases List.mem_cons.mp he with rfl | he'
      · rfl
      · exact ih _ _ e he'

/-- Helper: screenshot-save events are neutral. -/
theorem saveEvs_neutral (ps : List String) :
    ∀ e ∈ ps.map Ev.saveScreenshot, evNeutral e = true := by
  intro e he
  rcases List.mem_map.mp he with ⟨p, _, rfl⟩
  rfl

/-- Helper: the cleanup trace closes the one open session and stays
bounded. -/
theorem traceOK_cleanup (vf : VideoFile) (s : CVideoRecorder) :
    openAfter 1 (cleanupCore vf s).2 = 0
    ∧ ∀ x ∈ openSteps 1 (cleanupCore vf s).2, x ≤ 1 := by
  cases hpb : vf.pb <;>
    simp [cleanupCore, hpb, openAfter, openSteps, evStep]

/-- Helper: cleanup leaves no open session. -/
theorem cleanupCore_openAt (vf : VideoFile) (s : CVideoRecorder) :
    openAt (cleanupCore vf s).1 = 0 := by
  simp [cleanupCore, openAt]

/-- Helper: executing a stop task yields a well-bounded session trace
ending at the resulting state's session count. -/
theorem execStop_trace (m : Bool) (s : CVideoRecorder) :
    openAfter (openAt s) (execStop m s).2 = openAt (execStop m s).1
    ∧ ∀ x ∈ openSteps (openAt s) (execStop m s).2, x ≤ 1 := by
  cases hv : s.videoFile <;> cases m <;>
    simp [execStop, hv, cleanupCore, openAt, openAfter, openSteps, evStep]

/-- Helper: an explicitly matched stop on an open session closes it. -/
theorem execStop_closes (s : CVideoRecorder) (vf : VideoFile)
    (hv : s.videoFile = some vf) : ((execStop true s).1).videoFile = none := by
  simp [execStop, hv, cleanupCore]

/-- Helper: a successful session-setup body, entered with no open
container, yields a well-bounded session trace ending at the resulting
state's session count. -/
theorem execStartBody_trace (req : StartReq) (oc : StartOutcome)
    (s s' : CVideoRecorder) (evs : List Ev) (hvf : s.videoFile = none)
    (h : execStartBody req oc s = some (s', evs)) :
    openAfter 0 evs = openAt s' ∧ ∀ x ∈ openSteps 0 evs, x ≤ 1 := by
  obtain ⟨b1, b2, b3, b4, b5, b6, b7, b8, b9, b10⟩ := oc
  unfold execStartBody at h
  cases b1 with
  | false =>
    simp at h
    obtain ⟨rfl, rfl⟩ := h
    simp [openAt, hvf, openAfter, openSteps, evStep]
  | true =>
  cases b2 with
  | false =>
    simp at h
    obtain ⟨rfl, rfl⟩ := h
    simp [openAt, hvf, openAfter, openSteps, evStep]
  | true =>
  cases b3 with
  | false => simp [cleanupRun, hvf] at h
  | true =>
  cases b4 with
  | false => simp [cleanupRun, hvf] at h
  | true =>
  cases b5 with
  | false => simp [cleanupRun, hvf] at h
  | true =>
  cases b6 with
  | false => simp [cleanupRun, hvf] at h
  | true =>
  cases b7 with
  | false =>
    simp at h
    obtain ⟨rfl, rfl⟩ := h
    simp [cleanupCore, openAt, openAfter, openSteps, evStep]
  | true =>
  cases b8 with
  | false =>
    simp at h
    obtain ⟨rfl, rfl⟩ := h
    simp [cleanupCore, openAt, openAfter, openSteps, evStep]
  | true =>
  cases b9 with
  | false =>
    simp at h
    obtain ⟨rfl, rfl⟩ := h
    simp [cleanupCore, openAt, openAfter, openSteps, evStep]
  | true =>
  cases b10 with
  | false =>
    simp at h
    obtain ⟨rfl, rfl⟩ := h
    simp [cleanupCore, openAt, openAfter, openSteps, evStep]
  | true =>
    simp at h
    obtain ⟨rfl, rfl⟩ := h
    simp [openAt, openAfter, openSteps, evStep]

/-- Helper: executing a frame task yields a well-bounded session trace
ending at the resulting state's session count. -/
theorem execFrameTask_trace (f : FrameHandle) (eo : FrameOutcome)
    (s s' : CVideoRecorder) (evs : List Ev)
    (h : execFrameTask f eo s = some (s', evs)) :
    openAfter (openAt s) evs = openAt s'
    ∧ ∀ x ∈ openSteps (openAt s) evs, x ≤ 1 := by
  unfold execFrameTask at h
  cases hp : f.frameData.pixels with
  | none =>
    simp only [hp, Option.some.injEq, Prod.mk.injEq] at h
    obtain ⟨rfl, rfl⟩ := h
    exact traceOK_neutral [Ev.warnInvalidFrame] (by simp [evNeutral])
      (openAt_le_one s)
  | some px =>
    simp only [hp] at h
    by_cases hc : f.videoPendingFrames ≠ 0 ∧ s.videoFile.isSome
    · rw [if_pos hc] at h
      rcases hv : s.videoFile with _ | vf
      · rw [hv] at hc; simp at hc
      rcases hctx : s.context with _ | ctx
      · simp only [hv, hctx] at h
        exact Option.noConfusion h
      rcases hdf : s.dstFrame with _ | df
      · simp only [hv, hctx, hdf] at h
        exact Option.noConfusion h
      simp only [hv, hctx, hdf] at h
      have h1 : openAt s = 1 := by simp [openAt, hv]
      rw [h1]
      split at h
      · simp only [Option.some.injEq, Prod.mk.injEq] at h
        obtain ⟨rfl, rfl⟩ := h
        rw [cleanupCore_openAt]
        exact traceOK_append
          (traceOK_neutral _ (saveEvs_neutral f.screenshotPaths) (by omega))
          (traceOK_cleanup vf s)
      · split at h
        · simp only [Option.some.injEq, Prod.mk.injEq] at h
          obtain ⟨rfl, rfl⟩ := h
          rw [cleanupCore_openAt]
          exact traceOK_append
            (traceOK_neutral _ (saveEvs_neutral f.screenshotPaths) (by omega))
            (traceOK_cleanup vf s)
        · rcases hE : encodeLoop eo.encodeFailAt df.pts f.videoPendingFrames
            with ⟨eevs, r⟩
          have hne : ∀ e ∈ eevs, evNeutral e = true := by
            have hq := encodeLoop_neutral eo.encodeFailAt df.pts
              f.videoPendingFrames
            rw [hE] at hq
            exact hq
          rw [hE] at h
          cases r with
          | none =>
            simp only [Option.some.injEq, Prod.mk.injEq] at h
            obtain ⟨rfl, rfl⟩ := h
            rw [cleanupCore_openAt]
            exact traceOK_append
              (traceOK_append
                (traceOK_neutral _ (saveEvs_neutral f.screenshotPaths)
                  (by omega))
                (traceOK_neutral _ hne (by omega)))
              (traceOK_cleanup vf s)
          | some pts =>
            simp only [Option.some.injEq, Prod.mk.injEq] at h
            obtain ⟨rfl, rfl⟩ := h
            have hcomp := traceOK_append (c := 1)
              (traceOK_neutral _ (saveEvs_neutral f.screenshotPaths)
                (by omega))
              (traceOK_neutral _ hne (by omega))
            refine ⟨?_, hcomp.2⟩
            rw [hcomp.1]
            simp [openAt, hv]
    · rw [if_neg hc] at h
      simp only [Option.some.injEq, Prod.mk.injEq] at h
      obtain ⟨rfl, rfl⟩ := h
      exact traceOK_neutral _ (saveEvs_neutral f.screenshotPaths)
        (openAt_le_one s)

/-- Helper: executing a start task yields a well-bounded session trace
ending at the resulting state's session count. -/
theorem execStart_trace (req : StartReq) (oc : StartOutcome)
    (s s' : CVideoRecorder) (evs : List Ev)
    (h : execStart req oc s = some (s', evs)) :
    openAfter (openAt s) evs = openAt s'
    ∧ ∀ x ∈ openSteps (openAt s) evs, x ≤ 1 := by
  have hwn : ∀ e ∈ (if req.matchedStop then ([] : List Ev)
      else [Ev.warnUnmatchedStart]), evNeutral e = true := by
    cases req.matchedStop <;> simp [evNeutral]
  unfold execStart at h
  cases hv : s.videoFile with
  | none =>
    simp only [hv] at h
    rcases hb : execStartBody req oc s with _ | ⟨sb, eb⟩
    · rw [hb] at h; simp at h
    · rw [hb] at h
      simp only [Option.map_some', Option.some.injEq, Prod.mk.injEq] at h
      obtain ⟨rfl, rfl⟩ := h
      have h0 : openAt s = 0 := by simp [openAt, hv]
      rw [h0]
      exact traceOK_append (traceOK_neutral _ hwn (by omega))
        (execStartBody_trace req oc s sb eb hv hb)
  | some vf =>
    simp only [hv] at h
    rcases hb : execStartBody req oc (execStop true s).1 with _ | ⟨sb, eb⟩
    · rw [hb] at h; simp at h
    · rw [hb] at h
      simp only [Option.map_some', Option.some.injEq, Prod.mk.injEq] at h
      obtain ⟨rfl, rfl⟩ := h
      have h1 : openAt s = 1 := by simp [openAt, hv]
      have hclosed : openAt (execStop true s).1 = 0 := by
        simp [openAt, execStop_closes s vf hv]
      have hstop1 := (execStop_trace true s).1
      have hstop2 := (execStop_trace true s).2
      rw [h1, hclosed] at hstop1
      rw [h1] at hstop2
      have hstop' : openAfter 1 (execStop true s).2 = 0
          ∧ ∀ x ∈ openSteps 1 (execStop true s).2, x ≤ 1 := ⟨hstop1, hstop2⟩
      have hbody := execStartBody_trace req oc _ sb eb
        (execStop_closes s vf hv) hb
      rw [h1]
      exact traceOK_append
        (traceOK_append (traceOK_neutral _ hwn (by omega)) hstop') hbody

/-- Helper: executing any task yields a well-bounded session trace ending
at the resulting state's session count. -/
theorem execTask_trace (t : Task) (s s' : CVideoRecorder) (evs : List Ev)
    (h : execTask t s = some (s', evs)) :
    openAfter (openAt s) evs = openAt s'
    ∧ ∀ x ∈ openSteps (openAt s) evs, x ≤ 1 := by
  cases t with
  | frame f eo => exact execFrameTask_trace f eo s s' evs h
  | start req oc => exact execStart_trace req oc s s' evs h
  | stop m =>
    have h' : execStop m s = (s', evs) := by
      simpa [execTask] using h
    have ht := execStop_trace m s
    rw [h'] at ht
    exact ht

/-- Helper: a worker run over any task list yields a well-bounded session
trace. -/
theorem runTasks_trace (ts : List Task) (s s' : CVideoRecorder)
    (evs : List Ev) (h : runTasks ts s = some (s', evs)) :
    openAfter (openAt s) evs = openAt s'
    ∧ ∀ x ∈ openSteps (openAt s) evs, x ≤ 1 := by
  induction ts generalizing s evs with
  | nil =>
    simp only [runTasks, Option.some.injEq, Prod.mk.injEq] at h
    obtain ⟨rfl, rfl⟩ := h
    exact ⟨rfl, by intro x hx; simp [openSteps] at hx⟩
  | cons t ts ih =>
    unfold runTasks at h
    split at h
    next heq => exact Option.noConfusion h
    next s1 e1 heq =>
      split at h
      next heq2 => exact Option.noConfusion h
      next s2 e2 heq2 =>
        simp only [Option.some.injEq, Prod.mk.injEq] at h
        obtain ⟨rfl, rfl⟩ := h
        exact traceOK_append (execTask_trace t s s1 e1 heq) (ih s1 e2 heq2)

/-- Helper: membership in `takeWhile` through a satisfying prefix. -/
theorem mem_takeWhile_append {p : Ev → Bool} (l1 l2 : List Ev) (a : Ev)
    (h1 : ∀ x ∈ l1, p x = true) (ha : a ∈ l1) :
    a ∈ (l1 ++ l2).takeWhile p := by
  induction l1 with
  | nil => simp at ha
  | cons x xs ih =>
    have hx := h1 x (List.mem_cons_self x xs)
    rw [List.cons_append, List.takeWhile_cons_of_pos hx]
    rcases List.mem_cons.mp ha with rfl | ha'
    · exact List.mem_cons_self _ _
    · exact List.mem_cons_of_mem _
        (ih (fun y hy => h1 y (List.mem_cons_of_mem x hy)) ha')

/-- C2: at most one recording session is ever open on the worker.  First
conjunct: along the event trace of any executed task sequence the number
of simultaneously open sessions never exceeds one.  Second conjunct: a
start task executed while a session is open closes the previous session
(the implicit stop's `sessionClosed`) strictly before any new session is
opened. -/
theorem C2_single_session :
    (∀ ts s s' evs, runTasks ts s = some (s', evs) →
       ∀ x ∈ openSteps (openAt s) evs, x ≤ 1)
    ∧ (∀ req oc s vf s' evs, s.videoFile = some vf →
        execStart req oc s = some (s', evs) →
        Ev.sessionClosed ∈ evs.takeWhile (fun e => !isSessionOpened e)) := by
  constructor
  · intro ts s s' evs h
    exact (runTasks_trace ts s s' evs h).2
  · intro req oc s vf s' evs hv h
    unfold execStart at h
    simp only [hv] at h
    rcases hb : execStartBody req oc (execStop true s).1 with _ | ⟨sb, eb⟩
    · rw [hb] at h; simp at h
    · rw [hb] at h
      simp only [Option.map_some', Option.some.injEq, Prod.mk.injEq] at h
      obtain ⟨rfl, rfl⟩ := h
      have hstop : (execStop true s).2
          = [Ev.ioStopEncode, Ev.ioWriteTrailer, Ev.ioCloseFile,
             Ev.sessionClosed, Ev.logStopResult true] := by
        simp [execStop, hv, cleanupCore]
      rw [hstop]
      apply mem_takeWhile_append
      · cases hm : req.matchedStop <;> simp [hm, isSessionOpened]
      · cases hm : req.matchedStop <;> simp [hm]

/-- C2 witness: a stop task run on an open session keeps the count at most
one, and a start task on an open session emits `sessionClosed` before its
`sessionOpened`. -/
theorem C2_single_session_witness :
    (runTasks [Task.stop true]
        { initRecorder with videoFile := some ⟨true, "old.mp4"⟩ }
      = some (initRecorder,
              [Ev.ioStopEncode, Ev.ioWriteTrailer, Ev.ioCloseFile,
               Ev.sessionClosed, Ev.logStopResult true])
     ∧ ∀ x ∈ openSteps
         (openAt { initRecorder with videoFile := some ⟨true, "old.mp4"⟩ })
         [Ev.ioStopEncode, Ev.ioWriteTrailer, Ev.ioCloseFile,
          Ev.sessionClosed, Ev.logStopResult true], x ≤ 1)
    ∧ (({ initRecorder with
            videoFile := some ⟨true, "old.mp4"⟩ } : CVideoRecorder).videoFile
         = some ⟨true, "old.mp4"⟩
       ∧ Ev.sessionClosed ∈
           ([Ev.ioStopEncode, Ev.ioWriteTrailer, Ev.ioCloseFile,
             Ev.sessionClosed, Ev.logStopResult true,
             Ev.sessionOpened, Ev.ioOpenFile,
             Ev.ioWriteHeader].takeWhile (fun e => !isSessionOpened e))) :=
  ⟨⟨by decide,
    C2_single_session.1 [Task.stop true]
      { initRecorder with videoFile := some ⟨true, "old.mp4"⟩ }
      initRecorder
      [Ev.ioStopEncode, Ev.ioWriteTrailer, Ev.ioCloseFile,
       Ev.sessionClosed, Ev.logStopResult true] (by decide)⟩,
   ⟨rfl,
    C2_single_session.2 c6Req StartOutcome.allOk
      { initRecorder with videoFile := some ⟨true, "old.mp4"⟩ }
      ⟨true, "old.mp4"⟩
      { initRecorder with
          context := some ⟨640, 480, 30⟩,
          dstFrame := some ⟨false, 640, 480, 0⟩,
          videoFile := some ⟨true, "a.mp4"⟩, videoStream := true }
      [Ev.ioStopEncode, Ev.ioWriteTrailer, Ev.ioCloseFile,
       Ev.sessionClosed, Ev.logStopResult true,
       Ev.sessionOpened, Ev.ioOpenFile, Ev.ioWriteHeader]
      rfl (by decide)⟩⟩

end VideoRecorder
